import Mathlib

/-!
Shallow embedding of the node-server-template repository: the master-side
dispatcher (`src/index.ts`), the worker-side route table and decorators
(`src/decorator.ts`), the transaction helper (`src/utils.ts`) and the
dependency registry (interface module). Pure data flow is translated
directly; external effects (the message broker, timers) are modelled by
explicit oracles and event lists.
-/

set_option autoImplicit false

namespace NodeServerTemplate

/-! ## Shared data model (`src/interface.ts`) -/

/-- `IRequest` from `interface.ts`, restricted to the fields the routing and
guard code reads: `method`, `url`, and the optional authenticated `user`. -/
structure IRequest where
  method : String
  url : String
  user : Option Nat := none
  deriving Repr, DecidableEq

/-- `IResult` from `interface.ts`: a success envelope. The payload is kept
abstract as an optional string. -/
structure IResult where
  statusCode : Nat
  result : Option String := none
  deriving Repr, DecidableEq

/-- A signaled failure (an `http-errors` instance): a JS error carrying an
optional `statusCode` and a `message`. -/
structure Failure where
  statusCode : Option Nat
  message : String
  deriving Repr, DecidableEq

/-- `new NotFound()` from `http-errors`. -/
def notFoundFailure : Failure := { statusCode := some 404, message := "Not Found" }

/-- `new Forbidden()` from `http-errors`. -/
def forbiddenFailure : Failure := { statusCode := some 403, message := "Forbidden" }

/-- The Gateway Timeout failure signalled when the wait timer fires. -/
def gatewayTimeoutFailure : Failure := { statusCode := some 504, message := "Gateway Timeout" }

/-- JS `x || d` on an optional numeric field: `undefined` and `0` are falsy. -/
def jsOr (x : Option Nat) (d : Nat) : Nat :=
  match x with
  | none => d
  | some v => if v = 0 then d else v

/-- `IResponse` assembled by the master handlers: status code plus either a
result or an error message, with the elapsed time attached. -/
structure IResponse where
  statusCode : Nat
  result : Option String := none
  error : Option String := none
  elapsed : Option Nat := none
  deriving Repr, DecidableEq

/-! ## Character-level string helpers

The JS code uses `toLocaleUpperCase`, `startsWith`, `endsWith` and path
splitting; they are re-expressed over `List Char` so that concrete runs
reduce inside the kernel. -/

/-- `toLocaleUpperCase` (ASCII, as used for HTTP method names). -/
def upper (s : String) : String := ⟨s.data.map Char.toUpper⟩

/-- Split a character list at every occurrence of `sep`. -/
def splitChars (sep : Char) : List Char → List (List Char)
  | [] => [[]]
  | c :: cs =>
    match splitChars sep cs with
    | [] => [[c]]
    | r :: rs => if c = sep then [] :: r :: rs else (c :: r) :: rs

/-! ## Path matching (external collaborator `node-match-path`) -/

/-- Split a URL path on `/`, dropping empty segments, as the external
`node-match-path` matcher does when comparing a pattern to a path. -/
def splitPath (s : String) : List (List Char) :=
  (splitChars '/' s.data).filter (fun seg => seg ≠ [])

/-- Segment-wise structural match: a literal segment must be equal, a
`:param` segment matches any one segment. -/
def segMatch : List (List Char) → List (List Char) → Bool
  | [], [] => true
  | p :: ps, q :: qs => (p == q || p.head? == some ':') && segMatch ps qs
  | _, _ => false

/-- Model of the external `match(pattern, path).matches` from
`node-match-path`: the wildcard pattern matches everything, otherwise the
two paths must match segment by segment. -/
def matchPath (pattern url : String) : Bool :=
  pattern == "*" || segMatch (splitPath pattern) (splitPath url)

/-! ## Master-side dispatcher (`src/index.ts`, the `app.all` handler) -/

/-- `IMapper` from `interface.ts`: one mapping entry of the master route
table. -/
structure IMapper where
  method : String
  path : String
  queue : String
  deriving Repr, DecidableEq

/-- The request data the `app.all` handler consults for matching: the HTTP
method and the parsed `url.pathname`. -/
structure MasterRequest where
  method : String
  pathname : String
  deriving Repr, DecidableEq

/-- The per-entry test of the dispatch loop in `masterMain`:
`REQ_METHOD === MAP_METHOD || 'ALL' === MAP_METHOD`, then
`match(path, url.pathname).matches`. -/
def mapperMatches (req : MasterRequest) (m : IMapper) : Bool :=
  (upper req.method == upper m.method || upper m.method == "ALL")
    && matchPath m.path req.pathname

/-- The `for (const ... of mapper)` loop of the `app.all` handler returns at
the first entry whose method and path match: a first-match scan. -/
def findMapping (mapper : List IMapper) (req : MasterRequest) : Option IMapper :=
  mapper.find? (mapperMatches req)

/-- The body of the `try` block of the `app.all` handler: find the first
matching entry, submit a job to its queue and await the outcome (the queue
interaction is an oracle from queue name to outcome), or throw `NotFound`
when no entry matches. -/
def dispatchTry (mapper : List IMapper) (req : MasterRequest)
    (waitOutcome : String → Except Failure IResult) : Except Failure IResult :=
  match findMapping mapper req with
  | some m => waitOutcome m.queue
  | none => Except.error notFoundFailure

/-- The whole `app.all` handler: the `try` body, with the `catch` block
turning any signaled failure into an error envelope via
`e.statusCode || 500` and `e.message`; `elapsed` is attached on both paths. -/
def dispatchHandler (mapper : List IMapper) (req : MasterRequest)
    (waitOutcome : String → Except Failure IResult) (elapsed : Nat) : IResponse :=
  match dispatchTry mapper req waitOutcome with
  | Except.ok r =>
      { statusCode := r.statusCode, result := r.result, elapsed := some elapsed }
  | Except.error e =>
      { statusCode := jsOr e.statusCode 500, error := some e.message,
        elapsed := some elapsed }

/-! ## Generic first-match lemmas for `List.find?` -/

theorem find?_eq_some_split {α : Type} (p : α → Bool) (l : List α) (a : α)
    (h : l.find? p = some a) :
    ∃ l1 l2, l = l1 ++ a :: l2 ∧ (∀ x ∈ l1, p x = false) ∧ p a = true := by
  induction l with
  | nil => simp [List.find?] at h
  | cons b l ih =>
    by_cases hb : p b = true
    · rw [List.find?_cons_of_pos _ hb] at h
      refine ⟨[], l, ?_, ?_, ?_⟩
      · simp [← Option.some_inj.mp h]
      · intro x hx; simp at hx
      · rw [← Option.some_inj.mp h]; exact hb
    · rw [List.find?_cons_of_neg _ hb] at h
      obtain ⟨l1, l2, hl, hfail, hp⟩ := ih h
      refine ⟨b :: l1, l2, by rw [hl]; rfl, ?_, hp⟩
      intro x hx
      rcases List.mem_cons.mp hx with hx | hx
      · subst hx; exact Bool.eq_false_iff.mpr hb
      · exact hfail x hx

theorem find?_append_of_some {α : Type} (p : α → Bool) (l1 l2 : List α) (a : α)
    (h : l1.find? p = some a) : (l1 ++ l2).find? p = some a := by
  induction l1 with
  | nil => simp [List.find?] at h
  | cons b l ih =>
    by_cases hb : p b = true
    · rw [List.find?_cons_of_pos _ hb] at h
      simpa [List.find?_cons_of_pos _ hb] using h
    · rw [List.find?_cons_of_neg _ hb] at h
      simpa [List.find?_cons_of_neg _ hb] using ih h

/-- C1: the Dispatcher selects the first mapping entry (in declaration
order) whose method (exact or ALL) and path pattern match: the selected
entry matches, every earlier entry fails the test, the job is submitted to
the selected entry's queue, and appending further entries never changes the
outcome for a request that already matched. -/
theorem dispatcher_first_match_append_stable
    (mapper extra : List IMapper) (req : MasterRequest)
    (waitOutcome : String → Except Failure IResult) (m : IMapper)
    (h : findMapping mapper req = some m) :
    mapperMatches req m = true ∧
    (∃ l1 l2, mapper = l1 ++ m :: l2 ∧ ∀ x ∈ l1, mapperMatches req x = false) ∧
    findMapping (mapper ++ extra) req = some m ∧
    dispatchTry mapper req waitOutcome = waitOutcome m.queue ∧
    dispatchTry (mapper ++ extra) req waitOutcome = waitOutcome m.queue := by
  obtain ⟨l1, l2, hl, hfail, hp⟩ := find?_eq_some_split _ _ _ h
  have happ : findMapping (mapper ++ extra) req = some m :=
    find?_append_of_some _ _ _ _ h
  refine ⟨hp, ⟨l1, l2, hl, hfail⟩, happ, ?_, ?_⟩
  · unfold dispatchTry; rw [h]
  · unfold dispatchTry; rw [happ]

/-- Witness for C1 at a concrete mapping table and request. -/
theorem dispatcher_first_match_append_stable_witness :
    findMapping [⟨"GET", "/users/:id", "users"⟩, ⟨"ALL", "/users/42", "other"⟩]
        ⟨"GET", "/users/42"⟩ = some ⟨"GET", "/users/:id", "users"⟩ ∧
    mapperMatches ⟨"GET", "/users/42"⟩ ⟨"GET", "/users/:id", "users"⟩ = true ∧
    findMapping ([⟨"GET", "/users/:id", "users"⟩, ⟨"ALL", "/users/42", "other"⟩]
        ++ [⟨"GET", "/users/:id", "late"⟩]) ⟨"GET", "/users/42"⟩
      = some ⟨"GET", "/users/:id", "users"⟩ := by
  have h : findMapping [⟨"GET", "/users/:id", "users"⟩, ⟨"ALL", "/users/42", "other"⟩]
      ⟨"GET", "/users/42"⟩ = some ⟨"GET", "/users/:id", "users"⟩ := by decide
  obtain ⟨h1, _, h3, _, _⟩ := dispatcher_first_match_append_stable
    [⟨"GET", "/users/:id", "users"⟩, ⟨"ALL", "/users/42", "other"⟩]
    [⟨"GET", "/users/:id", "late"⟩] ⟨"GET", "/users/42"⟩
    (fun _ => Except.error notFoundFailure) ⟨"GET", "/users/:id", "users"⟩ h
  exact ⟨h, h1, h3⟩

/-! ## Worker-side route table (`src/decorator.ts`) -/

/-- Modelled from the spec: `fixUrl` is imported from `./utils` by
`decorator.ts` but absent from the provided sources. §4.1 describes the
normalization it performs: "leading `/` enforced, trailing `/` stripped". -/
def fixUrl (url : String) : String :=
  let withLead : List Char :=
    if url.data.head? = some '/' then url.data else '/' :: url.data
  ⟨(withLead.reverse.dropWhile (fun c => c = '/')).reverse⟩

/-- `CheckData` from `decorator.ts`: a predicate over the request. -/
abbrev CheckData := IRequest → Bool

/-- `PathFunction` from `decorator.ts`: a handler (it may throw, e.g. a
guard-wrapped handler throwing `Forbidden`). -/
abbrev PathFunction := IRequest → Except Failure IResult

/-- One registered route entry: the `[CheckData, PathFunction]` pair pushed
by the `Path` decorator. -/
abbrev PathEntry := CheckData × PathFunction

/-- One module's slice of the `paths` registry: method name → registered
entries in registration order. -/
abbrev PathTable := List (String × List PathEntry)

/-- Bin lookup with the lazy initialization of `find`: a missing method bin
is initialized to `[]`, so it behaves as the empty entry list. -/
def getBin (t : PathTable) (m : String) : List PathEntry :=
  match t.find? (fun kv => kv.1 == m) with
  | some kv => kv.2
  | none => []

/-- The normalized request `find` passes to each check:
`{ ...data, url: fixUrl(data.url) }`. -/
def normReq (d : IRequest) : IRequest := { d with url := fixUrl d.url }

/-- `find(data)` of the class returned by the `Queue` decorator: scan the
request-method bin in registration order for the first entry whose check
accepts the normalized request. -/
def queueFind (t : PathTable) (d : IRequest) : Option PathEntry :=
  (getBin t d.method).find? (fun e => e.1 (normReq d))

/-- `run(data)`: `find(data) || find({ ...data, method: 'ALL' })`, throwing
`NotFound` when both fail, otherwise invoking the found handler on the
original (un-normalized) request. -/
def queueRun (t : PathTable) (d : IRequest) : Except Failure IResult :=
  match (queueFind t d).orElse (fun _ => queueFind t { d with method := "ALL" }) with
  | some target => target.2 d
  | none => Except.error notFoundFailure

/-- The `baseUrl` normalization at the top of the `Queue` decorator: when
non-empty, prepend a leading `/` if missing, then strip every trailing `/`. -/
def fixBaseUrl (baseUrl : String) : String :=
  if baseUrl ≠ "" then
    let withLead : List Char :=
      if baseUrl.data.head? = some '/' then baseUrl.data else '/' :: baseUrl.data
    ⟨(withLead.reverse.dropWhile (fun c => c = '/')).reverse⟩
  else baseUrl

/-- The routable module produced by the `Queue(baseUrl)` decorator: it holds
the normalized base url and the module's path table; `find`/`run` read only
the table. -/
structure QueueModule where
  baseUrl : String
  table : PathTable

/-- `Queue(baseUrl)` applied to a module class with registry slice `t`. -/
def queueDecorator (baseUrl : String) (t : PathTable) : QueueModule :=
  { baseUrl := fixBaseUrl baseUrl, table := t }

/-- `find` on the decorated module. -/
def moduleFind (m : QueueModule) (d : IRequest) : Option PathEntry :=
  queueFind m.table d

/-- `run` on the decorated module. -/
def moduleRun (m : QueueModule) (d : IRequest) : Except Failure IResult :=
  queueRun m.table d

/-- C2: worker-side resolution scans the request-method bin in registration
order and takes the first entry whose check accepts the normalized request;
if that bin is absent or has no matching entry it retries the `ALL` bin with
the same normalization; if that also fails, `run` signals NotFound. -/
theorem route_resolution_order_and_fallback (t : PathTable) (d : IRequest) :
    (∀ e, queueFind t d = some e →
      (∃ l1 l2, getBin t d.method = l1 ++ e :: l2 ∧
        (∀ x ∈ l1, x.1 (normReq d) = false) ∧ e.1 (normReq d) = true) ∧
      queueRun t d = e.2 d) ∧
    (queueFind t d = none →
      ∀ e, queueFind t { d with method := "ALL" } = some e → queueRun t d = e.2 d) ∧
    (queueFind t d = none → queueFind t { d with method := "ALL" } = none →
      queueRun t d = Except.error notFoundFailure) := by
  refine ⟨?_, ?_, ?_⟩
  · intro e he
    obtain ⟨l1, l2, hl, hf, hp⟩ := find?_eq_some_split _ _ _ he
    exact ⟨⟨l1, l2, hl, hf, hp⟩, by unfold queueRun; rw [he]; rfl⟩
  · intro hn e he
    unfold queueRun
    rw [hn]
    simp only [Option.orElse]
    rw [he]
  · intro hn hn2
    unfold queueRun
    rw [hn]
    simp only [Option.orElse]
    rw [hn2]

/-- Check of the sample GET route used by the C2 witness. -/
def wGetCheck : CheckData := fun d => d.url == "/a"

/-- Handler of the sample GET route used by the C2 witness. -/
def wGetHandler : PathFunction := fun _ => Except.ok { statusCode := 200, result := some "get" }

/-- Check of the sample ALL route used by the C2 witness. -/
def wAllCheck : CheckData := fun d => d.url == "/b"

/-- Handler of the sample ALL route used by the C2 witness. -/
def wAllHandler : PathFunction := fun _ => Except.ok { statusCode := 200, result := some "all" }

/-- Sample path table used by the C2 witness. -/
def wTable : PathTable :=
  [("GET", [(wGetCheck, wGetHandler)]), ("ALL", [(wAllCheck, wAllHandler)])]

/-- Witness for C2: the ALL-bin fallback fires for an unmatched POST, and an
unmatched path on both bins yields NotFound. -/
theorem route_resolution_order_and_fallback_witness :
    queueRun wTable { method := "POST", url := "/b" }
      = Except.ok { statusCode := 200, result := some "all" } ∧
    queueRun wTable { method := "GET", url := "/zzz" }
      = Except.error notFoundFailure := by
  constructor
  · have h := (route_resolution_order_and_fallback wTable
      { method := "POST", url := "/b" }).2.1 rfl (wAllCheck, wAllHandler) rfl
    exact h.trans rfl
  · exact (route_resolution_order_and_fallback wTable
      { method := "GET", url := "/zzz" }).2.2 rfl rfl

/-- C10: route resolution is completely independent of the module's base
path: the `Queue` wrapper normalizes `baseUrl` but `find` and `run` never
consult it, so decorating the same class with different base paths yields
identical outcomes on every request. -/
theorem queue_base_path_irrelevant (t : PathTable) (b1 b2 : String) (d : IRequest) :
    (queueDecorator b1 t).baseUrl = fixBaseUrl b1 ∧
    moduleFind (queueDecorator b1 t) d = moduleFind (queueDecorator b2 t) d ∧
    moduleRun (queueDecorator b1 t) d = moduleRun (queueDecorator b2 t) d :=
  ⟨rfl, rfl, rfl⟩

/-! ## Guard composition (`src/decorator.ts`, the `Guard` decorator) -/

/-- The JS reduce `guardFuncs.reduce((r, f) => r && f(data), true)` with an
explicit invocation trace: when the accumulator is already `false`, `&&`
short-circuits and `f` is not invoked, so its index is not recorded. `i` is
the index of the next guard, `inv` the indices invoked so far (in order). -/
def guardRun (d : IRequest) : List CheckData → Bool → Nat → List Nat → Bool × List Nat
  | [], r, _, inv => (r, inv)
  | f :: fs, r, i, inv =>
    if r then guardRun d fs (f d) (i + 1) (inv ++ [i])
    else guardRun d fs false (i + 1) inv

/-- Observable outcome of a guarded handler call: which guard indices were
invoked, whether the wrapped handler body ran, and the returned value. -/
structure GuardOutcome where
  invoked : List Nat
  handlerRan : Bool
  result : Except Failure IResult

/-- The wrapped descriptor installed by `Guard(...guardFuncs)`: run the
reduce over the guards; if the accumulated result is false, throw
`Forbidden` without touching the handler, otherwise invoke the original
handler on the request. -/
def guardedDispatch (gs : List CheckData) (func : PathFunction) (d : IRequest) :
    GuardOutcome :=
  let r := guardRun d gs true 0 []
  if r.1 then { invoked := r.2, handlerRan := true, result := func d }
  else { invoked := r.2, handlerRan := false, result := Except.error forbiddenFailure }

theorem guardRun_false (d : IRequest) (fs : List CheckData) (i : Nat) (inv : List Nat) :
    guardRun d fs false i inv = (false, inv) := by
  induction fs generalizing i with
  | nil => rfl
  | cons f fs ih => rw [guardRun, if_neg (by simp)]; exact ih (i + 1)

theorem guardRun_all_true (d : IRequest) (fs : List CheckData)
    (h : ∀ g ∈ fs, g d = true) (i : Nat) (inv : List Nat) :
    guardRun d fs true i inv = (true, inv ++ List.range' i fs.length) := by
  induction fs generalizing i inv with
  | nil => simp [guardRun]
  | cons f fs ih =>
    rw [guardRun, if_pos rfl, h f (List.mem_cons_self f fs)]
    rw [ih (fun g hg => h g (List.mem_cons_of_mem f hg)) (i + 1) (inv ++ [i])]
    simp [List.range'_succ]

theorem guardRun_first_false (d : IRequest) (l1 : List CheckData) (g : CheckData)
    (l2 : List CheckData) (h1 : ∀ x ∈ l1, x d = true) (hg : g d = false)
    (i : Nat) (inv : List Nat) :
    guardRun d (l1 ++ g :: l2) true i inv = (false, inv ++ List.range' i (l1.length + 1)) := by
  induction l1 generalizing i inv with
  | nil =>
    rw [List.nil_append, guardRun, if_pos rfl, hg, guardRun_false]
    simp [List.range'_succ]
  | cons f l1 ih =>
    rw [List.cons_append, guardRun, if_pos rfl, h1 f (List.mem_cons_self f l1)]
    rw [ih (fun x hx => h1 x (List.mem_cons_of_mem f hx)) (i + 1) (inv ++ [i])]
    simp [List.range'_succ]

/-- C3: guard predicates are evaluated in order and evaluation stops at the
first predicate returning false — exactly the guards up to and including the
failing one are invoked, dispatch fails with Forbidden and the handler body
never runs; when every predicate returns true, all of them are invoked and
the wrapped handler runs normally, its result returned. -/
theorem guard_short_circuit (gs : List CheckData) (func : PathFunction) (d : IRequest) :
    ((∀ g ∈ gs, g d = true) →
      guardedDispatch gs func d =
        { invoked := List.range gs.length, handlerRan := true, result := func d }) ∧
    (∀ l1 g l2, gs = l1 ++ g :: l2 → (∀ x ∈ l1, x d = true) → g d = false →
      guardedDispatch gs func d =
        { invoked := List.range (l1.length + 1), handlerRan := false,
          result := Except.error forbiddenFailure }) := by
  constructor
  · intro h
    unfold guardedDispatch
    rw [guardRun_all_true d gs h 0 []]
    simp [List.range_eq_range']
  · intro l1 g l2 hgs h1 hg
    unfold guardedDispatch
    rw [hgs, guardRun_first_false d l1 g l2 h1 hg 0 []]
    simp [List.range_eq_range']

/-- First (passing) guard of the C3 witness. -/
def wGuardTrue : CheckData := fun d => d.method == "GET"

/-- Second (failing) guard of the C3 witness: `isAuthenticated`. -/
def wGuardAuth : CheckData := fun d => d.user.isSome

/-- Third guard of the C3 witness, standing in for a side-effecting guard
that must never be invoked. -/
def wGuardLate : CheckData := fun _ => true

/-- Handler wrapped by the C3 witness guards. -/
def wGuardedHandler : PathFunction := fun _ => Except.ok { statusCode := 200, result := some "ok" }

/-- Witness for C3: with guards `[true, isAuthenticated, late]` and an
unauthenticated request, only guards 0 and 1 are invoked — index 2 never
runs — the handler does not run and Forbidden is signaled; with an
authenticated request all three run and the handler result is returned. -/
theorem guard_short_circuit_witness :
    guardedDispatch [wGuardTrue, wGuardAuth, wGuardLate] wGuardedHandler
        { method := "GET", url := "/a" }
      = { invoked := [0, 1], handlerRan := false,
          result := Except.error forbiddenFailure } ∧
    guardedDispatch [wGuardTrue, wGuardAuth, wGuardLate] wGuardedHandler
        { method := "GET", url := "/a", user := some 7 }
      = { invoked := [0, 1, 2], handlerRan := true,
          result := Except.ok { statusCode := 200, result := some "ok" } } := by
  constructor
  · have h := (guard_short_circuit [wGuardTrue, wGuardAuth, wGuardLate] wGuardedHandler
      { method := "GET", url := "/a" }).2 [wGuardTrue] wGuardAuth [wGuardLate] rfl
      (by intro x hx; simp at hx; subst hx; rfl) rfl
    exact h.trans (by rfl)
  · have h := (guard_short_circuit [wGuardTrue, wGuardAuth, wGuardLate] wGuardedHandler
      { method := "GET", url := "/a", user := some 7 }).1
      (by
        intro g hg
        rcases List.mem_cons.mp hg with h | hg
        · subst h; rfl
        rcases List.mem_cons.mp hg with h | hg
        · subst h; rfl
        rcases List.mem_cons.mp hg with h | hg
        · subst h; rfl
        · simp at hg)
    exact h.trans (by rfl)

/-! ## Wait-with-timeout primitive (`wait` from `./utils`) -/

/-- The three signals that can reach a pending wait: the job's success
signal, its failure signal (carrying the reported status code and message),
or the timeout timer firing. -/
inductive WaitEvent where
  | success (res : IResult)
  | failure (code : Nat) (msg : String)
  | timer

/-- State of one wait: the resolution (once settled), how many completion
listeners are still attached, and whether the timer is still armed. -/
structure WaitState where
  resolution : Option (Except Failure IResult)
  listenerCount : Nat
  timerActive : Bool

/-- Modelled from the spec: the value a wait resolves with for each signal
(§4.5) — success resolves with the Result Envelope, failure resolves by
signaling a failure with the reported status code and message, the timer
resolves by signaling Gateway Timeout. -/
def waitOutcomeOf : WaitEvent → Except Failure IResult
  | WaitEvent.success r => Except.ok r
  | WaitEvent.failure c m => Except.error { statusCode := some c, message := m }
  | WaitEvent.timer => Except.error gatewayTimeoutFailure

/-- Modelled from the spec: `wait` is imported from `./utils` by `index.ts`
but absent from the provided sources. §4.5: whichever signal arrives first
resolves the wait and detaches all other listeners and the timer; a signal
arriving at an already-resolved wait finds no listener and changes nothing. -/
def waitStep (s : WaitState) (e : WaitEvent) : WaitState :=
  match s.resolution with
  | some _ => s
  | none =>
      { resolution := some (waitOutcomeOf e), listenerCount := 0, timerActive := false }

/-- Modelled from the spec: the initial wait state of §4.5 — one success
listener and one failure listener registered, timer armed, not resolved. -/
def initWait : WaitState :=
  { resolution := none, listenerCount := 2, timerActive := true }

/-- A whole wait: the sequence of signals the broker and the timer deliver,
in arrival order, folded over the wait state. -/
def waitRun (events : List WaitEvent) : WaitState :=
  events.foldl waitStep initWait

theorem waitRun_resolved_fixed (es : List WaitEvent) (s : WaitState)
    (h : s.resolution.isSome) : es.foldl waitStep s = s := by
  induction es with
  | nil => rfl
  | cons e es ih =>
    obtain ⟨r, hr⟩ := Option.isSome_iff_exists.mp h
    have hstep : waitStep s e = s := by unfold waitStep; rw [hr]
    rw [List.foldl_cons, hstep]
    exact ih

/-- C4: exactly one of the three outcomes resolves a wait — the first signal
to arrive determines the resolution (success payload, reported failure, or
Gateway Timeout), all listeners and the timer are detached at that moment,
and every later signal (in particular a completion arriving after the
timeout) leaves the resolved state entirely unchanged. -/
theorem wait_exactly_one_resolution (e : WaitEvent) (es : List WaitEvent) :
    waitRun (e :: es) = waitStep initWait e ∧
    (waitStep initWait e).resolution = some (waitOutcomeOf e) ∧
    (waitStep initWait e).listenerCount = 0 ∧
    (waitStep initWait e).timerActive = false := by
  have hres : (waitStep initWait e).resolution = some (waitOutcomeOf e) := rfl
  refine ⟨?_, hres, rfl, rfl⟩
  unfold waitRun
  rw [List.foldl_cons]
  exact waitRun_resolved_fixed es _ (by rw [hres]; rfl)

/-- C5: every signaled failure in the dispatch sequence is caught at the
single top-level boundary and becomes an error envelope whose status code is
the failure's code when present (`e.statusCode || 500`, defaulting to 500)
and whose error field is the failure's message; `elapsed` is attached on the
success path and on the failure path alike. -/
theorem dispatcher_error_boundary (mapper : List IMapper) (req : MasterRequest)
    (waitOutcome : String → Except Failure IResult) (t : Nat) :
    (dispatchHandler mapper req waitOutcome t).elapsed = some t ∧
    (∀ r, dispatchTry mapper req waitOutcome = Except.ok r →
      dispatchHandler mapper req waitOutcome t =
        { statusCode := r.statusCode, result := r.result, elapsed := some t }) ∧
    (∀ e, dispatchTry mapper req waitOutcome = Except.error e →
      dispatchHandler mapper req waitOutcome t =
        { statusCode := jsOr e.statusCode 500, error := some e.message,
          elapsed := some t }) := by
  refine ⟨?_, ?_, ?_⟩
  · unfold dispatchHandler
    cases dispatchTry mapper req waitOutcome <;> rfl
  · intro r hr
    unfold dispatchHandler
    rw [hr]
  · intro e he
    unfold dispatchHandler
    rw [he]

/-- Witness for C5: an empty mapping table makes the request throw NotFound
inside the try block; the boundary turns it into a 404 envelope with the
message and elapsed time attached. A failure without a status code becomes
500. -/
theorem dispatcher_error_boundary_witness :
    dispatchHandler [] ⟨"GET", "/a"⟩ (fun _ => Except.error notFoundFailure) 12
      = { statusCode := 404, error := some "Not Found", elapsed := some 12 } ∧
    dispatchHandler [⟨"GET", "/a", "q"⟩] ⟨"GET", "/a"⟩
        (fun _ => Except.error { statusCode := none, message := "boom" }) 9
      = { statusCode := 500, error := some "boom", elapsed := some 9 } := by
  constructor
  · exact ((dispatcher_error_boundary [] ⟨"GET", "/a"⟩
      (fun _ => Except.error notFoundFailure) 12).2.2 notFoundFailure rfl).trans rfl
  · exact ((dispatcher_error_boundary [⟨"GET", "/a", "q"⟩] ⟨"GET", "/a"⟩
      (fun _ => Except.error { statusCode := none, message := "boom" }) 9).2.2
      { statusCode := none, message := "boom" } rfl).trans rfl

/-! ## Health aggregator (`src/index.ts`, the `app.get` health handler) -/

/-- `lodash.uniq`: the distinct elements of a list, keeping the first
occurrence of each, in order. -/
def uniqFirst : List String → List String
  | [] => []
  | x :: xs => x :: (uniqFirst xs).filter (fun y => y ≠ x)

/-- `uniq(mapper.map((m) => m.queue))`: the distinct queue names referenced
by the mapping table. -/
def healthKeys (mapper : List IMapper) : List String :=
  uniqFirst (mapper.map (fun m => m.queue))

/-- One per-queue probe outcome as assembled by the health handler: the
status code of the awaited probe (or of the caught exception), an error
message on the failure path, and the probed queue name. -/
structure QueueProbe where
  statusCode : Nat
  error : Option String
  queue : String
  deriving Repr, DecidableEq

/-- One iteration of the health fan-out: submit a synthetic probe to the
queue and await it (the broker interaction is an oracle); a caught exception
becomes a per-queue error entry with `e.statusCode || 500` and `e.message`
instead of aborting. -/
def runProbe (probeOutcome : String → Except Failure IResult) (key : String) : QueueProbe :=
  match probeOutcome key with
  | Except.ok r => { statusCode := r.statusCode, error := none, queue := key }
  | Except.error e =>
      { statusCode := jsOr e.statusCode 500, error := some e.message, queue := key }

/-- The `Promise.all` fan-out of the health handler: one probe per distinct
queue name. -/
def healthProbes (mapper : List IMapper)
    (probeOutcome : String → Except Failure IResult) : List QueueProbe :=
  (healthKeys mapper).map (runProbe probeOutcome)

/-- `httpStatus['500_NAME']`, the generic error string of the degraded
health response. -/
def genericErrorName : String := "INTERNAL_SERVER_ERROR"

/-- The health response body. -/
structure HealthResponse where
  statusCode : Nat
  error : Option String := none
  result : Option (List QueueProbe) := none
  elapsed : Option Nat := none
  deriving Repr, DecidableEq

/-- The whole health handler: fan out, then
`result.find((r) => r.statusCode !== OK)`; when some probe is unavailable
the response is 503 with the generic error and no per-queue detail,
otherwise 200 with the per-queue results. -/
def healthHandler (mapper : List IMapper)
    (probeOutcome : String → Except Failure IResult) (elapsed : Nat) : HealthResponse :=
  match (healthProbes mapper probeOutcome).find? (fun r => r.statusCode != 200) with
  | some _ =>
      { statusCode := 503, error := some genericErrorName, elapsed := some elapsed }
  | none =>
      { statusCode := 200, result := some (healthProbes mapper probeOutcome),
        elapsed := some elapsed }

theorem mem_uniqFirst (y : String) (l : List String) : y ∈ uniqFirst l ↔ y ∈ l := by
  induction l with
  | nil => simp [uniqFirst]
  | cons x xs ih =>
    simp only [uniqFirst, List.mem_cons, List.mem_filter, ih]
    by_cases hyx : y = x
    · simp [hyx]
    · simp [hyx]

theorem nodup_uniqFirst (l : List String) : (uniqFirst l).Nodup := by
  induction l with
  | nil => exact List.nodup_nil
  | cons x xs ih =>
    rw [uniqFirst, List.nodup_cons]
    constructor
    · intro hx
      have := (List.mem_filter.mp hx).2
      simp at this
    · exact ih.filter _

theorem runProbe_queue (probeOutcome : String → Except Failure IResult) (key : String) :
    (runProbe probeOutcome key).queue = key := by
  unfold runProbe
  cases probeOutcome key <;> rfl

/-- C6: the health check submits exactly one synthetic probe per distinct
queue name referenced by the mapping entries — for every queue name, the
number of probes aimed at it is one when some entry references it and zero
otherwise, regardless of how many entries reference it. -/
theorem health_one_probe_per_distinct_queue (mapper : List IMapper)
    (probeOutcome : String → Except Failure IResult) (q : String) :
    (healthProbes mapper probeOutcome).length = (healthKeys mapper).length ∧
    (healthProbes mapper probeOutcome).countP (fun p => p.queue == q)
      = (if q ∈ mapper.map (fun m => m.queue) then 1 else 0) := by
  refine ⟨List.length_map _ _, ?_⟩
  unfold healthProbes
  rw [List.countP_map]
  have hcong : (healthKeys mapper).countP
      ((fun p => p.queue == q) ∘ runProbe probeOutcome)
      = (healthKeys mapper).countP (fun k => k == q) := by
    apply List.countP_congr
    intro k _
    simp [Function.comp, runProbe_queue]
  rw [hcong]
  have hcount : (healthKeys mapper).countP (fun k => k == q)
      = (healthKeys mapper).count q := rfl
  rw [hcount]
  by_cases hq : q ∈ mapper.map (fun m => m.queue)
  · rw [if_pos hq]
    exact List.count_eq_one_of_mem (nodup_uniqFirst _) ((mem_uniqFirst _ _).mpr hq)
  · rw [if_neg hq]
    exact List.count_eq_zero_of_not_mem (fun hmem => hq ((mem_uniqFirst _ _).mp hmem))

/-- C7: the overall health status is OK exactly when every per-queue probe
returned OK; when any probe did not, the response is ServiceUnavailable with
the generic error and without per-queue detail; a submission failure on one
queue becomes that queue's error entry, and the fan-out still probes every
distinct queue (siblings are not aborted). -/
theorem health_aggregation (mapper : List IMapper)
    (probeOutcome : String → Except Failure IResult) (t : Nat) :
    ((healthHandler mapper probeOutcome t).statusCode = 200 ↔
      ∀ p ∈ healthProbes mapper probeOutcome, p.statusCode = 200) ∧
    ((∃ p ∈ healthProbes mapper probeOutcome, p.statusCode ≠ 200) →
      healthHandler mapper probeOutcome t =
        { statusCode := 503, error := some genericErrorName, elapsed := some t }) ∧
    (∀ k e, probeOutcome k = Except.error e →
      runProbe probeOutcome k =
        { statusCode := jsOr e.statusCode 500, error := some e.message, queue := k }) ∧
    (healthProbes mapper probeOutcome).length = (healthKeys mapper).length := by
  refine ⟨?_, ?_, ?_, List.length_map _ _⟩
  · cases hf : (healthProbes mapper probeOutcome).find? (fun r => r.statusCode != 200) with
    | some p =>
      unfold healthHandler
      rw [hf]
      dsimp only
      constructor
      · intro h; exact absurd h (by decide)
      · intro hall
        have hp := List.find?_some hf
        have hmem := List.mem_of_find?_eq_some hf
        rw [hall p hmem] at hp
        exact absurd hp (by decide)
    | none =>
      unfold healthHandler
      rw [hf]
      constructor
      · intro _ p hp
        have := List.find?_eq_none.mp hf p hp
        simpa using this
      · intro _; rfl
  · rintro ⟨p, hp, hne⟩
    cases hf : (healthProbes mapper probeOutcome).find? (fun r => r.statusCode != 200) with
    | some _ =>
      unfold healthHandler
      rw [hf]
    | none =>
      have := List.find?_eq_none.mp hf p hp
      simp at this
      exact absurd this hne
  · intro k e he
    unfold runProbe
    rw [he]

/-- Mapping table of the C7 witness: two entries share the `users` queue, a
third references `orders`. -/
def wHealthMapper : List IMapper :=
  [⟨"GET", "/a", "users"⟩, ⟨"POST", "/a", "users"⟩, ⟨"GET", "/b", "orders"⟩]

/-- Probe oracle of the C7 witness: `users` answers OK, submitting to
`orders` throws a codeless exception. -/
def wHealthOutcome (k : String) : Except Failure IResult :=
  if k == "orders" then Except.error { statusCode := none, message := "boom" }
  else Except.ok { statusCode := 200 }

/-- Witness for C7: with one healthy queue and one failing queue the
response is the generic 503 without detail, the failing queue's probe is its
own error entry, and both distinct queues were probed. -/
theorem health_aggregation_witness :
    healthHandler wHealthMapper wHealthOutcome 4
      = { statusCode := 503, error := some genericErrorName, elapsed := some 4 } ∧
    runProbe wHealthOutcome "orders"
      = { statusCode := 500, error := some "boom", queue := "orders" } ∧
    (healthProbes wHealthMapper wHealthOutcome).length = 2 := by
  have h := health_aggregation wHealthMapper wHealthOutcome 4
  refine ⟨?_, ?_, ?_⟩
  · exact h.2.1 ⟨runProbe wHealthOutcome "orders", by decide, by decide⟩
  · exact (h.2.2.1 "orders" { statusCode := none, message := "boom" } rfl).trans
      (by decide)
  · exact (h.2.2.2).trans (by decide)

/-! ## Transaction helper (`src/utils.ts`, `inTransaction`) -/

/-- Operations performed on the storage transaction, in order. -/
inductive TxAction where
  | start
  | commit
  | rollback
  deriving Repr, DecidableEq

/-- `inTransaction` from `utils.ts`. `withGiven` is `!!transaction` (whether
the caller passed an open transaction); the callback's behaviour is the
`outcome` value. Returns the call's outcome together with the transaction
operations performed, in order: a fresh transaction is started only when
none was given; on a throw the `catch` block rolls back (only when none was
given) before re-propagating; the `finally` block commits only when none was
given and no rollback happened. `MyException.throw` (its module is absent
from the provided sources) is modelled from the spec (§7): it re-propagates
the transaction-scoped failure without masking it. -/
def inTransaction {T : Type} (withGiven : Bool) (outcome : Except Failure T) :
    Except Failure T × List TxAction :=
  let withTransaction := withGiven
  let startActs : List TxAction := if withTransaction then [] else [TxAction.start]
  match outcome with
  | Except.ok v =>
      let rollbackFlag := false
      (Except.ok v,
        startActs ++ if !withTransaction && !rollbackFlag then [TxAction.commit] else [])
  | Except.error e =>
      let catchActs := startActs ++ if !withTransaction then [TxAction.rollback] else []
      let rollbackFlag := !withTransaction
      (Except.error e,
        catchActs ++ if !withTransaction && !rollbackFlag then [TxAction.commit] else [])

/-- C8: with no transaction passed in, a new transaction is started and
committed on success, or rolled back before the error propagates on failure;
with an already-open transaction passed in, the inner scope performs no
commit and no rollback on either path and the outcome passes through. -/
theorem transaction_scope {T : Type} (outcome : Except Failure T) :
    (∀ v, outcome = Except.ok v →
      inTransaction false outcome = (Except.ok v, [TxAction.start, TxAction.commit])) ∧
    (∀ e, outcome = Except.error e →
      inTransaction false outcome = (Except.error e, [TxAction.start, TxAction.rollback])) ∧
    (inTransaction true outcome).1 = outcome ∧
    TxAction.commit ∉ (inTransaction true outcome).2 ∧
    TxAction.rollback ∉ (inTransaction true outcome).2 := by
  refine ⟨?_, ?_, ?_, ?_, ?_⟩
  · intro v hv; rw [hv]; rfl
  · intro e he; rw [he]; rfl
  · unfold inTransaction; cases outcome <;> rfl
  · unfold inTransaction; cases outcome <;> simp
  · unfold inTransaction; cases outcome <;> simp

/-- Witness for C8 at concrete outcomes: a fresh scope commits on success
and rolls back on failure. -/
theorem transaction_scope_witness :
    inTransaction false (Except.ok (1 : Nat))
      = (Except.ok 1, [TxAction.start, TxAction.commit]) ∧
    inTransaction false (Except.error notFoundFailure : Except Failure Nat)
      = (Except.error notFoundFailure, [TxAction.start, TxAction.rollback]) :=
  ⟨(transaction_scope (Except.ok 1)).1 1 rfl,
   (transaction_scope (Except.error notFoundFailure)).2.1 notFoundFailure rfl⟩

/-! ## Dependency registry (`Dependencies` in the interface module) -/

/-- A registered object instance: its runtime constructor name (the type
identity the registry keys on) and an identifying value distinguishing
distinct instances of the same class. -/
structure DepInstance where
  ctorName : String
  value : Nat
  deriving Repr, DecidableEq

/-- The `dependencies` record of the `Dependencies` class: constructor name
to stored instance. -/
def Registry : Type := String → Option DepInstance

/-- The empty `dependencies` record. -/
def emptyRegistry : Registry := fun _ => none

/-- `register(dependency)`:
`this.dependencies[dependency.constructor.name] = dependency`, silently
overwriting any prior entry under that name. -/
def registerDep (reg : Registry) (inst : DepInstance) : Registry :=
  fun k => if k = inst.ctorName then some inst else reg k

/-- `get(dependency)`: look the class name up and return the stored
instance, or throw `InternalServerError` with the Dependency Not Found
message. -/
def getDep (reg : Registry) (name : String) : Except Failure DepInstance :=
  match reg name with
  | some inst => Except.ok inst
  | none =>
      Except.error
        { statusCode := some 500, message := "Dependency " ++ name ++ " Not Found" }

/-- C9: looking up a registered instance by its runtime type identity
returns exactly that instance; a second registration for the same identity
silently overwrites the first and the lookup then returns the later one; a
lookup for an identity that was never registered signals an InternalError
with a Dependency Not Found message. -/
theorem dependency_registry (reg : Registry) (a b : DepInstance) (name : String) :
    getDep (registerDep reg a) a.ctorName = Except.ok a ∧
    (b.ctorName = a.ctorName →
      getDep (registerDep (registerDep reg a) b) a.ctorName = Except.ok b) ∧
    (reg name = none →
      getDep reg name = Except.error
        { statusCode := some 500, message := "Dependency " ++ name ++ " Not Found" }) := by
  refine ⟨?_, ?_, ?_⟩
  · unfold getDep registerDep
    rw [if_pos rfl]
  · intro hb
    unfold getDep registerDep
    rw [if_pos hb.symm]
  · intro hnone
    unfold getDep
    rw [hnone]

/-- Witness for C9: registering two instances under the same class name
leaves the later one; a never-registered name yields the Not Found error. -/
theorem dependency_registry_witness :
    getDep (registerDep (registerDep emptyRegistry ⟨"DaoHelper", 1⟩) ⟨"DaoHelper", 2⟩)
        "DaoHelper" = Except.ok ⟨"DaoHelper", 2⟩ ∧
    getDep emptyRegistry "Sequelize"
      = Except.error
          { statusCode := some 500, message := "Dependency Sequelize Not Found" } := by
  have h := dependency_registry emptyRegistry ⟨"DaoHelper", 1⟩ ⟨"DaoHelper", 2⟩ "Sequelize"
  exact ⟨h.2.1 rfl, h.2.2 rfl⟩

end NodeServerTemplate
